import Mathlib

/-!
Verification of the conditional-assertion / skip logic of the
playwright-federal-digital-test-framework test suite.

The definitions below are shallow embeddings of the helper functions and
test bodies found in the repository:
  tests/api/comprehensive-api.spec.ts   (handleResponseOrSkip and callers)
  tests/api/integration.spec.ts         (concurrency and pagination checks)
  tests/e2e/accessibility.spec.ts       (environment-gated skip logic)
  tests/fixtures/ui.fixture.ts          (page fixture navigation)
  tests/unit/example.test.ts            (retryOperation helper)
HTTP responses are modelled as a status code, a header association list and
a JSON body; console output is modelled as a list of log strings; a thrown
assertion error is modelled as an explicit constructor rather than a
returned value.
-/

/-- A JSON value, modelling the parsed `response.body` of supertest. -/
inductive JsonVal where
  | null
  | bool (b : Bool)
  | num (n : Int)
  | str (s : String)
  | arr (elems : List JsonVal)
  | obj (fields : List (String × JsonVal))

mutual

/-- Deep structural equality of JSON values, modelling the jest matcher
`expect(a).toEqual(b)`. -/
def jsonBeq : JsonVal → JsonVal → Bool
  | .null, .null => true
  | .bool a, .bool b => a == b
  | .num a, .num b => a == b
  | .str a, .str b => a == b
  | .arr xs, .arr ys => jsonListBeq xs ys
  | .obj fs, .obj gs => jsonFieldsBeq fs gs
  | _, _ => false

/-- Deep equality on lists of JSON values. -/
def jsonListBeq : List JsonVal → List JsonVal → Bool
  | [], [] => true
  | x :: xs, y :: ys => jsonBeq x y && jsonListBeq xs ys
  | _, _ => false

/-- Deep equality on JSON object field lists. -/
def jsonFieldsBeq : List (String × JsonVal) → List (String × JsonVal) → Bool
  | [], [] => true
  | (k1, v1) :: fs, (k2, v2) :: gs => k1 == k2 && jsonBeq v1 v2 && jsonFieldsBeq fs gs
  | _, _ => false

end

/-- Deep equality lifted to optional JSON values (`undefined` equals `undefined`
under `toEqual`). -/
def jsonOptBeq : Option JsonVal → Option JsonVal → Bool
  | none, none => true
  | some a, some b => jsonBeq a b
  | _, _ => false

/-- An HTTP response as observed by the tests: status code, headers and body. -/
structure ApiResponse where
  status : Nat
  headers : List (String × String)
  body : JsonVal

/-- Lookup of `response.headers[k]`. -/
def getHeader (r : ApiResponse) (k : String) : Option String :=
  (r.headers.find? (fun p => p.fst == k)).map (fun p => p.snd)

/-- Property access `v[k]` on a JSON value: `none` models `undefined`. -/
def jsonGet (v : JsonVal) (k : String) : Option JsonVal :=
  match v with
  | .obj fields => (fields.find? (fun p => p.fst == k)).map (fun p => p.snd)
  | _ => none

/-- The jest matcher `expect(v).toHaveProperty(k)`. -/
def jsonHasProp (v : JsonVal) (k : String) : Bool :=
  (jsonGet v k).isSome

/-- The check `Array.isArray(v[k])`: `undefined` is not an array. -/
def jsonPropIsArray (v : JsonVal) (k : String) : Bool :=
  match jsonGet v k with
  | some (.arr _) => true
  | _ => false

/-- Whether pattern `pat` matches at the head of `s`. -/
def charSeqAt : List Char → List Char → Bool
  | [], _ => true
  | _ :: _, [] => false
  | p :: ps, c :: cs => p == c && charSeqAt ps cs

/-- Whether pattern `pat` occurs somewhere in `s`. -/
def charSeqIn (pat : List Char) : List Char → Bool
  | [] => charSeqAt pat []
  | c :: cs => charSeqAt pat (c :: cs) || charSeqIn pat cs

/-- Substring test, modelling the regex matcher `toMatch(/pat/)` for a
literal pattern. -/
def strContains (s pat : String) : Bool :=
  charSeqIn pat.toList s.toList

/-- Result of a call to `handleResponseOrSkip`: either a returned boolean, or
a thrown jest assertion error from `expect(response.status).toBe(expectedStatus)`
carrying the actual and expected status. -/
inductive HandleResult where
  | ret (b : Bool)
  | assertionFailure (actual expected : Nat)
deriving DecidableEq

/-- Whether the call returned (rather than threw). -/
def HandleResult.isReturn : HandleResult → Bool
  | .ret _ => true
  | .assertionFailure _ _ => false

/-- The skip warning emitted on the 404 branch of `handleResponseOrSkip`
(tests/api/comprehensive-api.spec.ts line 17). -/
def skip404Warning (endpoint : String) : String :=
  "Skipping " ++ endpoint ++ ": returned 404 Not Found"

/-- Shallow embedding of `handleResponseOrSkip(response, expectedStatus, endpoint)`
(tests/api/comprehensive-api.spec.ts lines 8-22). A falsy `response` is
modelled by `none`. Returns the call result together with the console output
produced during the call.

    if (!response) return false;
    if (response.status === 404) { console.warn(...); return false; }
    expect(response.status).toBe(expectedStatus);
    return true;
-/
def handleResponseOrSkip (response : Option ApiResponse) (expectedStatus : Nat)
    (endpoint : String) : HandleResult × List String :=
  match response with
  | none => (.ret false, [])
  | some r =>
    if r.status = 404 then
      (.ret false, [skip404Warning endpoint])
    else if r.status = expectedStatus then
      (.ret true, [])
    else
      (.assertionFailure r.status expectedStatus, [])

/-- Outcome of one test body: it passed, it returned early without failing
(skip), or a jest assertion failed (the string names the failed assertion). -/
inductive TestOutcome where
  | passed
  | skippedEarly
  | failed (reason : String)
deriving DecidableEq

/-- Embedding of the test body of `should return 404 for non-existent resource`
(tests/api/comprehensive-api.spec.ts lines 458-467):

    if (!handleResponseOrSkip(response, 404, '/forms/nonexistent-form-id')) return;
    expect(response.body).toHaveProperty('errors');
-/
def nonexistentFormCheck (response : Option ApiResponse) : TestOutcome × List String :=
  match response with
  | none => (.skippedEarly, [])
  | some r =>
    let h := handleResponseOrSkip (some r) 404 "/forms/nonexistent-form-id"
    match h.fst with
    | .ret false => (.skippedEarly, h.snd)
    | .assertionFailure _ _ => (.failed "status", h.snd)
    | .ret true =>
      if jsonHasProp r.body "errors" then (.passed, h.snd)
      else (.failed "body errors property", h.snd)

/-- The content-type header as tested by
`if (response.headers && response.headers['content-type'])`: in JavaScript an
empty string is falsy, so the guard also rejects an empty header value. -/
def truthyContentType (r : ApiResponse) : Option String :=
  match getHeader r "content-type" with
  | some ct => if ct = "" then none else some ct
  | none => none

/-- Embedding of the test body of `should retrieve veteran benefits`
(tests/api/comprehensive-api.spec.ts lines 25-37):

    if (!handleResponseOrSkip(response, 200, '/benefits')) return;
    if (response.headers && response.headers['content-type'])
      expect(response.headers['content-type']).toMatch(/json/);
    expect(response.body).toHaveProperty('data');
    expect(Array.isArray(response.body.data)).toBe(true);
-/
def veteranBenefitsCheck (response : Option ApiResponse) : TestOutcome × List String :=
  match response with
  | none => (.skippedEarly, [])
  | some r =>
    let h := handleResponseOrSkip (some r) 200 "/benefits"
    match h.fst with
    | .ret false => (.skippedEarly, h.snd)
    | .assertionFailure _ _ => (.failed "status", h.snd)
    | .ret true =>
      match truthyContentType r with
      | some ct =>
        if strContains ct "json" then
          if jsonHasProp r.body "data" then
            if jsonPropIsArray r.body "data" then (.passed, h.snd)
            else (.failed "data is array", h.snd)
          else (.failed "data property", h.snd)
        else (.failed "content-type json", h.snd)
      | none =>
        if jsonHasProp r.body "data" then
          if jsonPropIsArray r.body "data" then (.passed, h.snd)
          else (.failed "data is array", h.snd)
        else (.failed "data property", h.snd)

/-- The environment variables consulted by the accessibility specs:
whether `process.env.CI` is set (truthy) and whether `process.env.RUN_AXE`
is set (truthy). -/
structure EnvFlags where
  ci : Bool
  runAxe : Bool

/-- Embedding of `should not have accessibility violations on homepage`
(tests/e2e/accessibility.spec.ts lines 11-31). The input is the outcome of
`checkA11y`: `none` when no violation was raised, `some err` when it threw.

    try { await checkA11y(page, ...); }
    catch (error) {
      if (!process.env.CI && !process.env.RUN_AXE) { console.warn(...); return; }
      console.error(...); throw error;
    }
-/
def homepageA11yCheck (axeError : Option String) (env : EnvFlags) :
    TestOutcome × List String :=
  match axeError with
  | none => (.passed, [])
  | some err =>
    if !env.ci && !env.runAxe then
      (.skippedEarly,
        ["Accessibility violations found; skipping on local run: " ++ err])
    else
      (.failed "accessibility violations",
        ["Accessibility violations found: " ++ err])

/-- Embedding of the tail of `should have sufficient color contrast`
(tests/e2e/accessibility.spec.ts lines 144-155), after the axe run produced
the array `results` of color-contrast violations:

    const violationCount = Array.isArray(results) ? results.length : 0;
    if (violationCount > 0 && !process.env.CI && !process.env.RUN_AXE) {
      console.warn(...); test.skip(...); return;
    }
    expect(results).toEqual([]);
-/
def colorContrastCheck (violations : List String) (env : EnvFlags) :
    TestOutcome × List String :=
  let violationCount := violations.length
  if violationCount > 0 && !env.ci && !env.runAxe then
    (.skippedEarly,
      ["Found " ++ toString violationCount ++
        " color contrast violations - skipping on local run"])
  else if violations = [] then (.passed, [])
  else (.failed "color contrast violations", [])

/-- Outcome of the page-fixture setup in tests/fixtures/ui.fixture.ts:
whether the fixture went on to run the test body (`use(page)`), whether it
failed, and what it logged. -/
structure FixtureResult where
  proceeded : Bool
  failedSetup : Bool
  logs : List String
deriving DecidableEq

/-- Embedding of the `page` fixture override (tests/fixtures/ui.fixture.ts
lines 7-17). The input is the outcome of navigating to the sign-in page.

    await page.goto('https://digital.va.gov/sign-in', ...).catch(() => {
      // swallow navigation errors
    });
    await use(page);
-/
def uiFixturePageSetup (nav : Except String Unit) : FixtureResult :=
  match nav with
  | .ok _ => { proceeded := true, failedSetup := false, logs := [] }
  | .error _ => { proceeded := true, failedSetup := false, logs := [] }

/-- What a navigation step inside a test did: continued to the body of the
check, returned early without any report, or surfaced a failure. -/
inductive NavStepOutcome where
  | proceeded
  | silentSkip
  | surfacedFailure (e : String)
deriving DecidableEq

/-- Embedding of the navigation step of `should have proper ARIA labels for
form inputs` (tests/e2e/accessibility.spec.ts lines 72-81):

    try { await page.goto('https://digital.va.gov/sign-in', ...); }
    catch { return; }
-/
def ariaLabelsNavStep (nav : Except String Unit) : NavStepOutcome × List String :=
  match nav with
  | .ok _ => (.proceeded, [])
  | .error _ => (.silentSkip, [])

/-- Embedding of `should handle concurrent requests`
(tests/api/integration.spec.ts lines 114-127). The input is the list of the
responses delivered by `Promise.all` for the five identical `/benefits`
requests.

    const successCount = responses.filter((r) => r.status === 200).length;
    expect(successCount).toBe(5);
-/
def concurrentRequestsCheck (responses : List ApiResponse) : TestOutcome :=
  let successCount := (responses.filter (fun r => r.status == 200)).length
  if successCount = 5 then .passed else .failed "successCount"

/-- Number of requests issued by the concurrent-requests check:
`Array(5).fill(null).map(...)`. -/
def concurrentRequestCount : Nat := 5

/-- Embedding of `pagination should return consistent data`
(tests/api/integration.spec.ts lines 86-98). Each `.expect(200)` of
supertest fails the check when the status differs; then the two data
payloads are compared deeply.

    const page1 = await request(...).get('/forms?page=1&limit=5')....expect(200);
    const page1Again = await request(...).get('/forms?page=1&limit=5')....expect(200);
    expect(page1.body.data).toEqual(page1Again.body.data);
-/
def paginationConsistencyCheck (page1 page1Again : ApiResponse) : TestOutcome :=
  if page1.status ≠ 200 then .failed "first response status"
  else if page1Again.status ≠ 200 then .failed "second response status"
  else if jsonOptBeq (jsonGet page1.body "data") (jsonGet page1Again.body "data") then
    .passed
  else .failed "data payloads differ"

/-- Result of a call to the async `retryOperation` helper: it resolved with a
value, it rejected with the propagated error, or it resolved with
`undefined` (the fall-through when the loop body never runs). -/
inductive RetryResult (E A : Type) where
  | success (a : A)
  | thrown (e : E)
  | undef
deriving DecidableEq

/-- Recursive core of `retryOperation` (tests/unit/example.test.ts lines
114-127). `op i` is the outcome of the `(i+1)`-th invocation of `operation`;
`fuel` counts the iterations that remain (`maxAttempts - i`). Returns the
result together with how many times `operation` was invoked from this point.

    for (let i = 0; i < maxAttempts; i++) {
      try { return await operation(); }
      catch (error) {
        if (i === maxAttempts - 1) throw error;
        await new Promise((resolve) => setTimeout(resolve, delayMs));
      }
    }
-/
def retryAux {E A : Type} (op : Nat → Except E A) (i fuel : Nat) :
    RetryResult E A × Nat :=
  match fuel with
  | 0 => (.undef, 0)
  | f + 1 =>
    match op i with
    | .ok a => (.success a, 1)
    | .error e =>
      match f with
      | 0 => (.thrown e, 1)
      | f + 1 =>
        let rest := retryAux op (i + 1) (f + 1)
        (rest.fst, rest.snd + 1)

/-- Embedding of `retryOperation(operation, maxAttempts)`; the delay between
attempts does not affect the value. -/
def retryOperation {E A : Type} (op : Nat → Except E A) (maxAttempts : Nat) :
    RetryResult E A × Nat :=
  retryAux op 0 maxAttempts

/-- The conditional content-type assertion of `should retrieve veteran
benefits` as a single condition: when a truthy content-type header is
present it must match `/json/`, otherwise the assertion is vacuous. -/
def contentTypeJsonOk (r : ApiResponse) : Bool :=
  match truthyContentType r with
  | some ct => strContains ct "json"
  | none => true

/-- A sample operation for exercising `retryOperation`: fails twice, then
succeeds with 37. -/
def retryOpExample : Nat → Except String Nat :=
  fun j => if j < 2 then .error "boom" else .ok 37

mutual

theorem jsonBeq_iff (a b : JsonVal) : jsonBeq a b = true ↔ a = b := by
  cases a <;> cases b <;> simp [jsonBeq]
  case arr.arr xs ys => exact jsonListBeq_iff xs ys
  case obj.obj fs gs => exact jsonFieldsBeq_iff fs gs

theorem jsonListBeq_iff (xs ys : List JsonVal) : jsonListBeq xs ys = true ↔ xs = ys := by
  cases xs <;> cases ys <;> simp [jsonListBeq]
  case cons.cons x xs y ys =>
    exact and_congr (jsonBeq_iff x y) (jsonListBeq_iff xs ys)

theorem jsonFieldsBeq_iff (fs gs : List (String × JsonVal)) :
    jsonFieldsBeq fs gs = true ↔ fs = gs := by
  cases fs <;> cases gs <;> simp [jsonFieldsBeq]
  case cons.cons f fs g gs =>
    obtain ⟨k1, v1⟩ := f
    obtain ⟨k2, v2⟩ := g
    simp only [jsonFieldsBeq, Bool.and_eq_true, beq_iff_eq, Prod.mk.injEq]
    rw [jsonBeq_iff v1 v2, jsonFieldsBeq_iff fs gs]

end

theorem jsonOptBeq_iff (a b : Option JsonVal) : jsonOptBeq a b = true ↔ a = b := by
  cases a <;> cases b <;> simp [jsonOptBeq]
  case some.some x y => exact jsonBeq_iff x y

/-- C1: for every probe result whose status is 404, `handleResponseOrSkip`
returns the skip verdict `false`, logs exactly the warning that names the
context label (the endpoint occurs in the logged line), and never raises an
assertion failure, regardless of the `expectedStatus` argument. -/
theorem c1_handle404_skips_with_warning (r : ApiResponse) (expectedStatus : Nat)
    (endpoint : String) (h : r.status = 404) :
    handleResponseOrSkip (some r) expectedStatus endpoint
      = (.ret false, [skip404Warning endpoint]) ∧
    (handleResponseOrSkip (some r) expectedStatus endpoint).fst.isReturn = true ∧
    ∃ pre post, skip404Warning endpoint = pre ++ endpoint ++ post := by
  refine ⟨by simp [handleResponseOrSkip, h], by simp [handleResponseOrSkip, h,
    HandleResult.isReturn], "Skipping ", ": returned 404 Not Found", rfl⟩

/-- C1 witness: a concrete 404 response to the `/benefits` probe with
expected status 200 yields the skip verdict and the warning. -/
theorem c1_handle404_skips_with_warning_witness :
    handleResponseOrSkip (some ⟨404, [], .null⟩) 200 "/benefits"
      = (.ret false, [skip404Warning "/benefits"]) :=
  (c1_handle404_skips_with_warning ⟨404, [], .null⟩ 200 "/benefits" rfl).1

/-- C2: at the failing input — a 404 response whose body does contain an
`errors` array — the `should return 404 for non-existent resource` check
skips instead of evaluating the errors-array assertion, because the 404
branch of `handleResponseOrSkip` fires before the expected status 404 is
compared; the structural assertion on `errors` is unreachable in the very
scenario the check is for. -/
theorem c2_nonexistentForm_skips_instead_of_asserting :
    nonexistentFormCheck (some ⟨404, [], .obj [("errors", .arr [])]⟩)
      = (.skippedEarly, [skip404Warning "/forms/nonexistent-form-id"]) ∧
    nonexistentFormCheck (some ⟨404, [], .obj []⟩)
      = (.skippedEarly, [skip404Warning "/forms/nonexistent-form-id"]) := by
  exact ⟨rfl, rfl⟩

/-- C3 counterexample: on a response whose status (500) differs from the
expected status (200) and is not 404, `handleResponseOrSkip` does not return
a boolean verdict: it throws the jest assertion failure raised by
`expect(response.status).toBe(expectedStatus)`. -/
theorem c3_counterexample_mismatch_throws :
    (handleResponseOrSkip (some ⟨500, [], .null⟩) 200 "/health").fst
      = .assertionFailure 500 200 ∧
    (handleResponseOrSkip (some ⟨500, [], .null⟩) 200 "/health").fst.isReturn
      = false := by
  exact ⟨rfl, rfl⟩

/-- C3 amended: `handleResponseOrSkip` returns a boolean verdict when the
response is absent (false), has status 404 (false, with warning), or has the
expected status (true); when the status differs from `expectedStatus` and is
not 404 it does not return but raises an assertion failure surfacing the
actual and expected status. -/
theorem c3_handle_characterization (response : Option ApiResponse)
    (expectedStatus : Nat) (endpoint : String) :
    (handleResponseOrSkip none expectedStatus endpoint = (.ret false, [])) ∧
    (∀ r : ApiResponse, response = some r →
      (r.status = 404 →
        handleResponseOrSkip response expectedStatus endpoint
          = (.ret false, [skip404Warning endpoint])) ∧
      (r.status ≠ 404 → r.status = expectedStatus →
        handleResponseOrSkip response expectedStatus endpoint = (.ret true, [])) ∧
      (r.status ≠ 404 → r.status ≠ expectedStatus →
        handleResponseOrSkip response expectedStatus endpoint
          = (.assertionFailure r.status expectedStatus, []))) := by
  refine ⟨rfl, fun r hr => ⟨fun h404 => ?_, fun h404 heq => ?_, fun h404 hne => ?_⟩⟩
  · simp [hr, handleResponseOrSkip, h404]
  · subst heq
    simp [hr, handleResponseOrSkip, h404]
  · simp [hr, handleResponseOrSkip, h404, hne]

/-- C3 amended witness: concrete instances of the three response cases. -/
theorem c3_handle_characterization_witness :
    handleResponseOrSkip (some ⟨200, [], .null⟩) 200 "/forms" = (.ret true, []) :=
  ((c3_handle_characterization (some ⟨200, [], .null⟩) 200 "/forms").2
    ⟨200, [], .null⟩ rfl).2.1 (by decide) rfl

theorem veteranBenefitsCheck_200 (r : ApiResponse) (h200 : r.status = 200) :
    (veteranBenefitsCheck (some r)).fst =
      if contentTypeJsonOk r then
        if jsonHasProp r.body "data" then
          if jsonPropIsArray r.body "data" then .passed
          else .failed "data is array"
        else .failed "data property"
      else .failed "content-type json" := by
  have hh : handleResponseOrSkip (some r) 200 "/benefits" = (.ret true, []) := by
    simp [handleResponseOrSkip, h200]
  simp only [veteranBenefitsCheck, hh]
  cases hct : truthyContentType r with
  | none =>
    simp only [contentTypeJsonOk, hct]
    by_cases h2 : jsonHasProp r.body "data" <;>
      by_cases h3 : jsonPropIsArray r.body "data" <;> simp [h2, h3]
  | some ct =>
    simp only [contentTypeJsonOk, hct]
    by_cases hj : strContains ct "json"
    · simp only [hj, if_true]
      by_cases h2 : jsonHasProp r.body "data" <;>
        by_cases h3 : jsonPropIsArray r.body "data" <;> simp [h2, h3]
    · simp [hj]

/-- C4: when the response status is not 404 and equals the expected status
200, `handleResponseOrSkip` returns the pass verdict `true`, the veteran
benefits check does not skip, and its outcome is decided exactly by the
dependent structural assertions: the content-type header pattern, the
presence of the `data` property, and `data` being array-typed. -/
theorem c4_expected_status_runs_assertions (r : ApiResponse) (h200 : r.status = 200) :
    (handleResponseOrSkip (some r) 200 "/benefits").fst = .ret true ∧
    (veteranBenefitsCheck (some r)).fst ≠ .skippedEarly ∧
    ((veteranBenefitsCheck (some r)).fst = .passed ↔
      contentTypeJsonOk r = true ∧ jsonHasProp r.body "data" = true ∧
        jsonPropIsArray r.body "data" = true) := by
  refine ⟨by simp [handleResponseOrSkip, h200], ?_, ?_⟩ <;>
    rw [veteranBenefitsCheck_200 r h200] <;>
    by_cases h1 : contentTypeJsonOk r <;>
    by_cases h2 : jsonHasProp r.body "data" <;>
    by_cases h3 : jsonPropIsArray r.body "data" <;>
    simp [h1, h2, h3]

/-- C4 witness: a concrete 200 response with a JSON content type and an
array-valued `data` property passes all the structural assertions. -/
theorem c4_expected_status_runs_assertions_witness :
    (veteranBenefitsCheck (some ⟨200, [("content-type", "application/json")],
      .obj [("data", .arr [])]⟩)).fst = .passed :=
  ((c4_expected_status_runs_assertions
    ⟨200, [("content-type", "application/json")], .obj [("data", .arr [])]⟩
    rfl).2.2).mpr (by decide)

/-- C5 counterexample: with CI unset but RUN_AXE set — an environment whose
flag indicates non-CI (local) execution — an environment-flaky mismatch
makes the homepage accessibility check and the color contrast check fail
rather than warn and skip. -/
theorem c5_counterexample_local_with_runaxe_fails :
    (homepageA11yCheck (some "violations") ⟨false, true⟩).fst
      = .failed "accessibility violations" ∧
    (colorContrastCheck ["contrast violation"] ⟨false, true⟩).fst
      = .failed "color contrast violations" := by
  exact ⟨rfl, rfl⟩

/-- C5 amended: an environment-flaky mismatch is downgraded to a warning and
a skip exactly when both CI and the RUN_AXE opt-in are unset; under CI the
same mismatch fails the check. -/
theorem c5_environment_gated_skip (err : String) (violations : List String)
    (env : EnvFlags) (hv : violations ≠ []) :
    (env.ci = false → env.runAxe = false →
      (homepageA11yCheck (some err) env).fst = .skippedEarly ∧
      (homepageA11yCheck (some err) env).snd ≠ [] ∧
      (colorContrastCheck violations env).fst = .skippedEarly ∧
      (colorContrastCheck violations env).snd ≠ []) ∧
    (env.ci = true →
      (homepageA11yCheck (some err) env).fst = .failed "accessibility violations" ∧
      (colorContrastCheck violations env).fst = .failed "color contrast violations") := by
  obtain ⟨ci, ra⟩ := env
  constructor
  · rintro rfl rfl
    have hl : 0 < violations.length := List.length_pos.mpr hv
    refine ⟨by simp [homepageA11yCheck], by simp [homepageA11yCheck], ?_, ?_⟩ <;>
      simp [colorContrastCheck, hl]
  · rintro rfl
    exact ⟨by simp [homepageA11yCheck], by simp [colorContrastCheck, hv]⟩

/-- C5 amended witness: concrete mismatch skipped locally with both flags
unset. -/
theorem c5_environment_gated_skip_witness :
    (homepageA11yCheck (some "axe violation") ⟨false, false⟩).fst = .skippedEarly ∧
    (colorContrastCheck ["axe violation"] ⟨false, false⟩).fst = .skippedEarly :=
  ⟨((c5_environment_gated_skip "axe violation" ["axe violation"] ⟨false, false⟩
      (by decide)).1 rfl rfl).1,
   ((c5_environment_gated_skip "axe violation" ["axe violation"] ⟨false, false⟩
      (by decide)).1 rfl rfl).2.2.1⟩

/-- C6 counterexample: the absent-response skip path returns the skip
verdict `false` with no log at all — the skip is not discoverable in output
and no warning names the context. -/
theorem c6_counterexample_absent_response_no_log :
    handleResponseOrSkip none 200 "/benefits" = (.ret false, []) := rfl

/-- C6 amended: every skip verdict of `handleResponseOrSkip` arises either
from an absent response, in which case nothing is logged, or from a 404
response, in which case exactly one warning naming the context label is
logged. -/
theorem c6_skip_paths_logging (response : Option ApiResponse) (expectedStatus : Nat)
    (endpoint : String)
    (h : (handleResponseOrSkip response expectedStatus endpoint).fst = .ret false) :
    (response = none ∧
      (handleResponseOrSkip response expectedStatus endpoint).snd = []) ∨
    (∃ r : ApiResponse, response = some r ∧ r.status = 404 ∧
      (handleResponseOrSkip response expectedStatus endpoint).snd
        = [skip404Warning endpoint] ∧
      ∃ pre post, skip404Warning endpoint = pre ++ endpoint ++ post) := by
  cases response with
  | none => exact Or.inl ⟨rfl, rfl⟩
  | some r =>
    right
    by_cases h404 : r.status = 404
    · exact ⟨r, rfl, h404, by simp [handleResponseOrSkip, h404],
        "Skipping ", ": returned 404 Not Found", rfl⟩
    · exfalso
      by_cases heq : r.status = expectedStatus
      · subst heq
        simp [handleResponseOrSkip, h404] at h
      · simp [handleResponseOrSkip, h404, heq] at h

/-- C6 amended witness: the absent-response case at a concrete invocation. -/
theorem c6_skip_paths_logging_witness :
    ((none : Option ApiResponse) = none ∧
      (handleResponseOrSkip none 401 "/benefits (unauthenticated)").snd = []) ∨
    (∃ r : ApiResponse, (none : Option ApiResponse) = some r ∧ r.status = 404 ∧
      (handleResponseOrSkip none 401 "/benefits (unauthenticated)").snd
        = [skip404Warning "/benefits (unauthenticated)"] ∧
      ∃ pre post, skip404Warning "/benefits (unauthenticated)"
        = pre ++ "/benefits (unauthenticated)" ++ post) :=
  c6_skip_paths_logging none 401 "/benefits (unauthenticated)" rfl

/-- C7 counterexample: a navigation error is a probe execution error, yet
the UI page fixture swallows it (the fixture proceeds, does not fail and
logs nothing) and the ARIA-labels check returns early with no report. -/
theorem c7_counterexample_swallowed_nav_error :
    uiFixturePageSetup (.error "net::ERR_CONNECTION_REFUSED")
      = { proceeded := true, failedSetup := false, logs := [] } ∧
    ariaLabelsNavStep (.error "net::ERR_CONNECTION_REFUSED")
      = (.silentSkip, []) := by
  exact ⟨rfl, rfl⟩

/-- C7 amended: the UI page fixture swallows every navigation error —
its result is indistinguishable from a successful navigation — and the
ARIA-labels check silently skips on every navigation error; these probe
execution errors are neither surfaced as failures nor reported. -/
theorem c7_nav_errors_swallowed (e : String) :
    uiFixturePageSetup (.error e)
      = { proceeded := true, failedSetup := false, logs := [] } ∧
    uiFixturePageSetup (.error e) = uiFixturePageSetup (.ok ()) ∧
    ariaLabelsNavStep (.error e) = (.silentSkip, []) := by
  exact ⟨rfl, rfl, rfl⟩

/-- C8: with the batch of five concurrent identical requests, the
concurrent-requests check passes exactly when the count of successful
(status 200) responses equals the number of requests issued — equivalently,
when no request in the batch failed to come back 200. -/
theorem c8_concurrent_requests_no_drop (responses : List ApiResponse)
    (h : responses.length = concurrentRequestCount) :
    (concurrentRequestsCheck responses = .passed ↔
      (responses.filter (fun r => r.status == 200)).length = responses.length) ∧
    (concurrentRequestsCheck responses = .passed ↔
      ∀ r ∈ responses, r.status = 200) := by
  have hall : (responses.filter (fun r => r.status == 200)).length = responses.length
      ↔ ∀ r ∈ responses, r.status = 200 := by
    rw [List.filter_length_eq_length]
    simp
  have hpass : concurrentRequestsCheck responses = .passed ↔
      (responses.filter (fun r => r.status == 200)).length = responses.length := by
    rw [h]
    unfold concurrentRequestsCheck
    by_cases hc : (responses.filter (fun r => r.status == 200)).length = 5 <;>
      simp [hc, concurrentRequestCount]
  exact ⟨hpass, hpass.trans hall⟩

/-- C8 witness: five 200-responses pass the check. -/
theorem c8_concurrent_requests_no_drop_witness :
    concurrentRequestsCheck (List.replicate 5 ⟨200, [], .null⟩) = .passed :=
  ((c8_concurrent_requests_no_drop (List.replicate 5 ⟨200, [], .null⟩)
    (by decide)).1).mpr (by decide)

/-- C9: the pagination-consistency check passes exactly when both responses
to the identical `/forms?page=1&limit=5` request have status 200 and their
`data` payloads are deeply equal; any difference between the two data
arrays fails the check. -/
theorem c9_pagination_asserts_deep_equality (page1 page1Again : ApiResponse) :
    paginationConsistencyCheck page1 page1Again = .passed ↔
      (page1.status = 200 ∧ page1Again.status = 200 ∧
        jsonGet page1.body "data" = jsonGet page1Again.body "data") := by
  unfold paginationConsistencyCheck
  by_cases h1 : page1.status = 200 <;> by_cases h2 : page1Again.status = 200 <;>
    simp [h1, h2, jsonOptBeq_iff]

theorem retryAux_count_le {E A : Type} (op : Nat → Except E A) (i fuel : Nat) :
    (retryAux op i fuel).snd ≤ fuel := by
  induction fuel generalizing i with
  | zero => simp [retryAux]
  | succ f ih =>
    rw [retryAux]
    cases hop : op i with
    | ok a => simp
    | error e =>
      cases f with
      | zero => simp
      | succ f2 =>
        have h := ih (i + 1)
        show (retryAux op (i + 1) (f2 + 1)).snd + 1 ≤ f2 + 1 + 1
        omega

theorem retryAux_success {E A : Type} (op : Nat → Except E A) (i fuel k : Nat)
    (a : A) (hk : k < fuel) (hfail : ∀ j, j < k → ∃ e, op (i + j) = .error e)
    (hok : op (i + k) = .ok a) :
    retryAux op i fuel = (.success a, k + 1) := by
  induction k generalizing i fuel with
  | zero =>
    cases fuel with
    | zero => omega
    | succ f =>
      have h0 : op i = .ok a := by simpa using hok
      simp [retryAux, h0]
  | succ k2 ih =>
    cases fuel with
    | zero => omega
    | succ f =>
      obtain ⟨e, he⟩ := hfail 0 (Nat.succ_pos _)
      have hei : op i = .error e := by simpa using he
      cases f with
      | zero => omega
      | succ f2 =>
        have hrec : retryAux op (i + 1) (f2 + 1) = (.success a, k2 + 1) := by
          apply ih (i + 1) (f2 + 1) (by omega)
          · intro j hj
            obtain ⟨e2, he2⟩ := hfail (j + 1) (by omega)
            exact ⟨e2, by rw [show i + 1 + j = i + (j + 1) by omega]; exact he2⟩
          · rw [show i + 1 + k2 = i + (k2 + 1) by omega]
            exact hok
        simp [retryAux, hei, hrec]

theorem retryAux_all_fail {E A : Type} (op : Nat → Except E A) (es : Nat → E)
    (i fuel : Nat) (h1 : 1 ≤ fuel)
    (hfail : ∀ j, j < fuel → op (i + j) = .error (es (i + j))) :
    retryAux op i fuel = (.thrown (es (i + fuel - 1)), fuel) := by
  induction fuel generalizing i with
  | zero => omega
  | succ f ih =>
    have hei : op i = .error (es i) := by simpa using hfail 0 (by omega)
    cases f with
    | zero => simp [retryAux, hei]
    | succ f2 =>
      have hrec : retryAux op (i + 1) (f2 + 1)
          = (.thrown (es (i + 1 + (f2 + 1) - 1)), f2 + 1) := by
        apply ih (i + 1) (by omega)
        intro j hj
        rw [show i + 1 + j = i + (j + 1) by omega]
        exact hfail (j + 1) (by omega)
      rw [show i + 1 + (f2 + 1) - 1 = i + (f2 + 1 + 1) - 1 by omega] at hrec
      simp [retryAux, hei, hrec]

/-- C10: the retryOperation helper invokes the operation at most
`maxAttempts` times; with `maxAttempts = 0` it resolves to `undefined`
without invoking the operation; when the first `k < maxAttempts` invocations
fail and the next succeeds, it returns that first successful result after
exactly `k + 1` invocations; and when all `maxAttempts ≥ 1` invocations
fail, it propagates the error of the last invocation. -/
theorem c10_retryOperation_spec (E A : Type) (op : Nat → Except E A)
    (maxAttempts : Nat) :
    (retryOperation op maxAttempts).snd ≤ maxAttempts ∧
    retryOperation op 0 = (.undef, 0) ∧
    (∀ k a, k < maxAttempts → (∀ j, j < k → ∃ e, op j = .error e) →
      op k = .ok a → retryOperation op maxAttempts = (.success a, k + 1)) ∧
    (∀ es : Nat → E, 1 ≤ maxAttempts →
      (∀ j, j < maxAttempts → op j = .error (es j)) →
      retryOperation op maxAttempts
        = (.thrown (es (maxAttempts - 1)), maxAttempts)) := by
  refine ⟨retryAux_count_le op 0 maxAttempts, rfl, ?_, ?_⟩
  · intro k a hk hfail hok
    exact retryAux_success op 0 maxAttempts k a hk (by simpa using hfail)
      (by simpa using hok)
  · intro es h1 hfail
    have h := retryAux_all_fail op es 0 maxAttempts h1 (by simpa using hfail)
    simpa using h

/-- C10 witness: an operation failing twice then succeeding with 37, run
with three attempts, yields the success after exactly three invocations. -/
theorem c10_retryOperation_spec_witness :
    retryOperation retryOpExample 3 = (.success 37, 3) :=
  (c10_retryOperation_spec String Nat retryOpExample 3).2.2.1 2 37 (by omega)
    (fun j hj =>
      ⟨"boom", by
        match j, hj with
        | 0, _ => rfl
        | 1, _ => rfl
        | n + 2, h => exact absurd h (by omega)⟩)
    rfl
